import Mathlib

/-!
Verification of the esp8266 software-servo driver (SoftwareServo.cpp) against its
natural-language specification.

The C++ source is shallowly embedded below.  The file-static scheduler state
(the pin table, pulse-width table, cyclic schedule, active bitmask and current
cursor) becomes the structure `ServoState`; the per-instance `SoftwareServo`
object becomes the structure `SoftwareServo`; each member function becomes a
Lean function threading the state explicitly.  C `int` values are modelled as
`Int` (all arithmetic here stays far inside 32-bit range); C integer division
truncates toward zero and is modelled by `Int.tdiv`; division by zero is
undefined behaviour and is modelled by returning `none`.  Hardware effects
(`pinMode`, `digitalWrite`, `os_delay_us`) touch only the physical pins and are
outside the model; the timer peripheral (`os_timer_arm` / `os_timer_disarm`) is
modelled by the boolean `timer_armed`.  Bounded `for` loops are translated to
structurally recursive functions driven by a fuel argument equal to the loop
bound, so every definition computes by kernel reduction.
-/

/-- `MAX_SERVOS` (SoftwareServo.h line 60): the number of channel slots; every
static array in the source file has exactly four initializers. -/
def MAX_SERVOS : Nat := 4

/-- `REFRESH_INTERVAL` (SoftwareServo.h line 59): the refresh quantum used to
space the timer re-arms; the claims use it symbolically. -/
def REFRESH_INTERVAL : Int := 5

/-- `DEFAULT_NEUTRAL_PULSE_WIDTH` (SoftwareServo.h line 58): the duty cycle a
slot is given when a servo is attached or detached. -/
def DEFAULT_NEUTRAL_PULSE_WIDTH : Int := 1500

/-- `DEFAULT_MIN_PULSE_WIDTH` (SoftwareServo.h line 56): the uncalibrated
default shortest duty cycle. -/
def DEFAULT_MIN_PULSE_WIDTH : Int := 1000

/-- `DEFAULT_MAX_PULSE_WIDTH` (SoftwareServo.h line 57): the uncalibrated
default longest duty cycle. -/
def DEFAULT_MAX_PULSE_WIDTH : Int := 2000

/-- Arduino's `constrain(amt, low, high)` macro, used by `write` and
`writeMicroseconds`. -/
def constrain (amt low high : Int) : Int :=
  if amt < low then low else if amt > high then high else amt

/-- `improved_map` (source lines 35-46): the fixed-point value map.  C `/` on
`int` truncates toward zero, hence `Int.tdiv`.  The single division is by
`rangeIn`; when `rangeIn = 0` the C code divides by zero (undefined
behaviour), modelled as `none`. -/
def improved_map (value minIn maxIn minOut maxOut : Int) : Option Int :=
  let rangeIn := maxIn - minIn
  let rangeOut := maxOut - minOut
  let deltaIn := value - minIn
  let fixedHalfDecimal : Int := 1
  let fixedDecimal : Int := fixedHalfDecimal * 2
  if rangeIn = 0 then none
  else some (((deltaIn * rangeOut * fixedDecimal).tdiv rangeIn + fixedHalfDecimal).tdiv
      fixedDecimal + minOut)

/-- The file-static scheduler state of SoftwareServo.cpp (source lines 49-61):
pin table, pulse-width table, current cursor (`unsigned int`), active bitmask
`software_servo_map`, and the derived schedule (`next` and `delay` arrays).
The bitmask is a C `int` that only ever holds bits 0..3, hence `Nat`; bit
clearing with `~` is modelled by xor against the 32-bit all-ones mask.
`timer_armed` models whether `software_servo_timer` is currently armed. -/
structure ServoState where
  pins : List Int
  pulse_lenght : List Int
  current_servo : Nat
  map : Nat
  next_servo : List Int
  time_to_next_pulse : List Int
  timer_armed : Bool
deriving DecidableEq

/-- The initial values of the static arrays and variables (source lines 49-61);
the timer starts disarmed. -/
def initialState : ServoState :=
  { pins := [-1, -1, -1, -1]
    pulse_lenght := [DEFAULT_NEUTRAL_PULSE_WIDTH, DEFAULT_NEUTRAL_PULSE_WIDTH,
      DEFAULT_NEUTRAL_PULSE_WIDTH, DEFAULT_NEUTRAL_PULSE_WIDTH]
    current_servo := 0
    map := 0
    next_servo := [1, 2, 3, 0]
    time_to_next_pulse := [REFRESH_INTERVAL, REFRESH_INTERVAL, REFRESH_INTERVAL,
      REFRESH_INTERVAL]
    timer_armed := false }

/-- Well-formedness of the scheduler state: the four static arrays have their
declared length `MAX_SERVOS`. -/
def ServoState.WF (s : ServoState) : Prop :=
  s.pins.length = MAX_SERVOS ∧ s.pulse_lenght.length = MAX_SERVOS ∧
  s.next_servo.length = MAX_SERVOS ∧ s.time_to_next_pulse.length = MAX_SERVOS

instance (s : ServoState) : Decidable s.WF := by
  unfold ServoState.WF; infer_instance

/-- Inner loop of `find_times_between_pulses` (source lines 71-86): starting at
slot `(i+1) % MAX_SERVOS`, scan up to `fuel` slots in cyclic order, adding one
`REFRESH_INTERVAL` per unassigned slot, and return the first assigned slot
together with the accumulated time (the C `find = 1; break` path), or `none`
if the scan runs out (the C loop exiting with `find == 0`).  `fuel` is the
number of loop iterations left, i.e. `MAX_SERVOS - ii`. -/
def find_scan (pins : List Int) (i : Nat) : Nat → Nat → Int → Option (Nat × Int)
  | _ii, 0, _tmp_time => none
  | ii, fuel + 1, tmp_time =>
    if pins.getD ((ii + i + 1) % MAX_SERVOS) 0 = -1 then
      find_scan pins i (ii + 1) fuel (tmp_time + REFRESH_INTERVAL)
    else
      some ((ii + i + 1) % MAX_SERVOS, tmp_time)

/-- Outer loop of `find_times_between_pulses` (source lines 69-89): for every
slot `i`, run the cyclic scan with initial accumulator `REFRESH_INTERVAL`; on
success record `next_servo[i]` and `time_to_next_pulse[i]` and count the slot
into `finded`.  `fuel` is the number of outer iterations left. -/
def find_loop : ServoState → Nat → Int → Nat → ServoState × Int
  | s, _i, finded, 0 => (s, finded)
  | s, i, finded, fuel + 1 =>
    match find_scan s.pins i 0 MAX_SERVOS REFRESH_INTERVAL with
    | some (idx, tmp_time) =>
      find_loop
        { s with next_servo := s.next_servo.set i (idx : Int)
                 time_to_next_pulse := s.time_to_next_pulse.set i tmp_time }
        (i + 1) (finded + 1) fuel
    | none => find_loop s (i + 1) finded fuel

/-- `find_times_between_pulses` (source lines 64-92): rebuild the schedule and
return the rebuilt state together with the C return value `finded`. -/
def find_times_between_pulses (s : ServoState) : ServoState × Int :=
  find_loop s 0 0 MAX_SERVOS

/-- `software_servo_timer_tick` (source lines 94-115), the timer-interrupt
routine: if the bitmask is nonzero and the current slot's delay is
nonnegative, re-arm the timer (disarm, setfn, arm) and advance the cursor to
`next_servo[current]`; otherwise disarm.  The pulse emission itself
(`digitalWrite` HIGH, `os_delay_us`, `digitalWrite` LOW) only touches the
physical pin.  The cursor is `unsigned int`, so the `int` successor value is
converted mod 2^32. -/
def software_servo_timer_tick (s : ServoState) : ServoState :=
  if s.map ≠ 0 ∧ s.time_to_next_pulse.getD s.current_servo 0 ≥ 0 then
    { s with timer_armed := true
             current_servo := ((s.next_servo.getD s.current_servo 0).emod 4294967296).toNat }
  else
    { s with timer_armed := false }

/-- The per-instance servo object (SoftwareServo.h lines 92-97): slot id
(or -1), attached flag, and the calibration bounds. -/
structure SoftwareServo where
  _id : Int
  _attached : Bool
  _minUs : Int
  _maxUs : Int
deriving DecidableEq

/-- The `SoftwareServo()` constructor (source lines 120-126): unbound, with the
uncalibrated default bounds from SoftwareServo.h. -/
def SoftwareServo.init : SoftwareServo :=
  { _id := -1, _attached := false
    _minUs := DEFAULT_MIN_PULSE_WIDTH, _maxUs := DEFAULT_MAX_PULSE_WIDTH }

/-- `SoftwareServo::readMicroseconds` (source lines 236-244). -/
def SoftwareServo.readMicroseconds (h : SoftwareServo) (s : ServoState) : Int :=
  if h._attached then s.pulse_lenght.getD h._id.toNat 0 else 0

/-- `SoftwareServo::read` (source lines 230-234): map the stored microseconds
back to the 0-180 angle domain.  `none` when `improved_map` divides by zero
(`_minUs = _maxUs`). -/
def SoftwareServo.read (h : SoftwareServo) (s : ServoState) : Option Int :=
  improved_map (h.readMicroseconds s) h._minUs h._maxUs 0 180

/-- `SoftwareServo::writeMicroseconds` (source lines 209-228): clamp to the
calibration bounds; if attached, store the width, rebuild the schedule, and
arm the timer (setting this slot's bitmask bit) when `finded > 0`, else clear
the bit and disarm.  `software_servo_map &= ~(1 << _id)` clears the bit of the
32-bit `int` mask, modelled by xor against the 32-bit all-ones value. -/
def SoftwareServo.writeMicroseconds (h : SoftwareServo) (s : ServoState) (value : Int) :
    ServoState :=
  let value := constrain value h._minUs h._maxUs
  if h._attached then
    let s1 := { s with pulse_lenght := s.pulse_lenght.set h._id.toNat value }
    let r := find_times_between_pulses s1
    if r.2 > 0 then
      { r.1 with map := r.1.map ||| (1 <<< h._id.toNat), timer_armed := true }
    else
      { r.1 with map := r.1.map &&& (4294967295 ^^^ (1 <<< h._id.toNat)), timer_armed := false }
  else s

/-- `SoftwareServo::write` (source lines 196-207): a value below 200 is an
angle, clamped to 0-180 and converted through `improved_map` into the
calibration range; otherwise the value is microseconds.  Then delegate to
`writeMicroseconds`.  The conversion's divisor is `180 - 0`, so the `none`
branch is unreachable; it is kept for faithfulness to the `improved_map`
model. -/
def SoftwareServo.write (h : SoftwareServo) (s : ServoState) (value : Int) :
    Option ServoState :=
  if value < 200 then
    match improved_map (constrain value 0 180) 0 180 h._minUs h._maxUs with
    | some v => some (h.writeMicroseconds s v)
    | none => none
  else some (h.writeMicroseconds s value)

/-- The slot-claiming loop in `attach` (source lines 151-162): return the first
index `i` with `software_servo_pins[i] == -1`, or `none`.  `fuel` is the
number of iterations left, i.e. `MAX_SERVOS - i`. -/
def attach_scan (pins : List Int) : Nat → Nat → Option Nat
  | _i, 0 => none
  | i, fuel + 1 => if pins.getD i 0 = -1 then some i else attach_scan pins (i + 1) fuel

/-- The tail of `attach` after the capacity check (source lines 173-181): clamp
`_maxUs` into 250-3000 and `_minUs` into 200-`_maxUs`, perform `write(value)`,
and return the pin converted to the `uint8_t` return type (mod 256). -/
def SoftwareServo.attach_tail (h : SoftwareServo) (s : ServoState)
    (pin minUs maxUs value : Int) : Option (SoftwareServo × ServoState × Int) :=
  let maxUs' := max 250 (min 3000 maxUs)
  let minUs' := max 200 (min maxUs' minUs)
  let h1 := { h with _minUs := minUs', _maxUs := maxUs' }
  match h1.write s value with
  | some s1 => some (h1, s1, pin.emod 256)
  | none => none

/-- `SoftwareServo::attach(pin, minUs, maxUs, value)` (source lines 143-182).
If not attached: set the pin low as output (a physical-pin effect, outside the
model), claim the first free slot, storing the pin and the raw initial value;
if no slot was found `_id` is still -1 and the function returns 0 with
nothing mutated; otherwise mark attached.  In all surviving paths, clamp the
bounds and `write(value)`, returning the pin (as `uint8_t`). -/
def SoftwareServo.attach (h : SoftwareServo) (s : ServoState)
    (pin minUs maxUs value : Int) : Option (SoftwareServo × ServoState × Int) :=
  if h._attached = false then
    match attach_scan s.pins 0 MAX_SERVOS with
    | some i =>
      let s1 := { s with pins := s.pins.set i pin
                         pulse_lenght := s.pulse_lenght.set i value }
      let h1 := { h with _id := (i : Int) }
      SoftwareServo.attach_tail { h1 with _attached := true } s1 pin minUs maxUs value
    | none =>
      if h._id = -1 then some (h, s, 0)
      else SoftwareServo.attach_tail { h with _attached := true } s pin minUs maxUs value
  else SoftwareServo.attach_tail h s pin minUs maxUs value

/-- `SoftwareServo::detach` (source lines 184-194): if attached, clear this
slot's bitmask bit, reset its pulse width to the neutral default, and unbind
the handle.  Note that `software_servo_pins[_id]` is not touched. -/
def SoftwareServo.detach (h : SoftwareServo) (s : ServoState) :
    SoftwareServo × ServoState :=
  if h._attached then
    ({ h with _id := -1, _attached := false },
     { s with map := s.map &&& (4294967295 ^^^ (1 <<< h._id.toNat))
              pulse_lenght := s.pulse_lenght.set h._id.toNat DEFAULT_NEUTRAL_PULSE_WIDTH })
  else (h, s)

/-- `SoftwareServo::attached` (source lines 246-249). -/
def SoftwareServo.attached (h : SoftwareServo) : Bool := h._attached

/-! ### Concrete scenario states

These are reachable states, obtained by evaluating the operations above; the
theorems that use them re-verify the provenance equations by `decide`. -/

/-- The handle after `attach(5, 1000, 2000, 1500)` on a fresh handle and fresh
state: bound to slot 0 with clamped bounds 1000-2000. -/
def h_one : SoftwareServo := { _id := 0, _attached := true, _minUs := 1000, _maxUs := 2000 }

/-- The scheduler state after that same attach: pin 5 in slot 0, bit 0 set,
slot 0 its own successor at a full cycle's delay. -/
def s_one : ServoState :=
  { pins := [5, -1, -1, -1], pulse_lenght := [1500, 1500, 1500, 1500], current_servo := 0,
    map := 1, next_servo := [0, 0, 0, 0], time_to_next_pulse := [20, 15, 10, 5],
    timer_armed := true }

/-- The handle `h_one` after `detach()`: unbound, bounds retained. -/
def h_det : SoftwareServo := { _id := -1, _attached := false, _minUs := 1000, _maxUs := 2000 }

/-- The state `s_one` after `detach()` of `h_one`: the bitmask is cleared but
pin 5 is still recorded in slot 0. -/
def s_det : ServoState :=
  { pins := [5, -1, -1, -1], pulse_lenght := [1500, 1500, 1500, 1500], current_servo := 0,
    map := 0, next_servo := [0, 0, 0, 0], time_to_next_pulse := [20, 15, 10, 5],
    timer_armed := true }

/-- A state with every slot occupied (pins 1,2,3,4), as produced by four
successful attaches. -/
def s_full : ServoState :=
  { pins := [1, 2, 3, 4], pulse_lenght := [1500, 1500, 1500, 1500], current_servo := 0,
    map := 15, next_servo := [1, 2, 3, 0], time_to_next_pulse := [5, 5, 5, 5],
    timer_armed := true }

/-- The handle after `attach(1, 3000, 250, 1500)` on a fresh handle and state:
the bound clamps collapse to `_minUs = _maxUs = 250`. -/
def h_deg : SoftwareServo := { _id := 0, _attached := true, _minUs := 250, _maxUs := 250 }

/-- The scheduler state after that degenerate attach. -/
def s_deg : ServoState :=
  { pins := [1, -1, -1, -1], pulse_lenght := [250, 1500, 1500, 1500], current_servo := 0,
    map := 1, next_servo := [0, 0, 0, 0], time_to_next_pulse := [20, 15, 10, 5],
    timer_armed := true }

/-- The handle after `attach(0, 1000, 2000, 1500)` (the default bounds and
initial value) on a fresh handle and state: bound to slot 0 on pin 0. -/
def h_pin0 : SoftwareServo := { _id := 0, _attached := true, _minUs := 1000, _maxUs := 2000 }

/-- The scheduler state after that attach to pin 0. -/
def s_pin0 : ServoState :=
  { pins := [0, -1, -1, -1], pulse_lenght := [1500, 1500, 1500, 1500], current_servo := 0,
    map := 1, next_servo := [0, 0, 0, 0], time_to_next_pulse := [20, 15, 10, 5],
    timer_armed := true }

/-! ### Claim theorems -/

/-- C1 (code bug): the first attach does claim the lowest free slot, but
`detach` never resets `software_servo_pins[_id]` to -1: after attaching pin 5
to slot 0 and detaching, slot 0 still records pin 5, and a subsequent attach
claims slot 1 instead of reusing slot 0.  The detached slot is permanently
lost, contradicting the claim that a detach frees its slot for reuse. -/
theorem attach_after_detach_cannot_reuse_slot :
    SoftwareServo.attach SoftwareServo.init initialState 5 1000 2000 1500 =
      some (h_one, s_one, 5) ∧
    SoftwareServo.detach h_one s_one = (h_det, s_det) ∧
    s_det.pins.getD 0 0 = 5 ∧
    (∃ s2, SoftwareServo.attach SoftwareServo.init s_det 7 1000 2000 1500 =
      some ({ _id := 1, _attached := true, _minUs := 1000, _maxUs := 2000 }, s2, 7) ∧
      s2.pins.getD 0 0 = 5 ∧ s2.pins.getD 1 0 = 7) := by
  refine ⟨by decide, by decide, by decide,
    ⟨{ pins := [5, 7, -1, -1], pulse_lenght := [1500, 1500, 1500, 1500], current_servo := 0,
       map := 2, next_servo := [1, 0, 0, 0], time_to_next_pulse := [5, 15, 10, 5],
       timer_armed := true }, by decide, by decide, by decide⟩⟩

/-- C2 (code bug): detaching the only active channel clears the bitmask, so the
Pulse Emitter's next invocation disarms rather than re-arming; but the
Schedule Builder's `finded` count on the post-detach table is `MAX_SERVOS`,
not 0, because `detach` leaves the slot's pin assigned. -/
theorem detach_only_active_disarms_but_count_not_zero :
    SoftwareServo.attach SoftwareServo.init initialState 5 1000 2000 1500 =
      some (h_one, s_one, 5) ∧
    SoftwareServo.detach h_one s_one = (h_det, s_det) ∧
    s_det.map = 0 ∧
    (software_servo_timer_tick s_det).timer_armed = false ∧
    (find_times_between_pulses s_det).2 = 4 := by decide

/-- C7: `attach` on a handle that is not bound (so `_id = -1`) when every slot
is occupied returns 0 and changes neither the scheduler state nor the
handle. -/
theorem attach_capacity_exhausted_noop (h : SoftwareServo) (s : ServoState)
    (pin minUs maxUs value : Int) (hat : h._attached = false) (hid : h._id = -1)
    (hfull : ∀ j, j < MAX_SERVOS → s.pins.getD j 0 ≠ -1) :
    h.attach s pin minUs maxUs value = some (h, s, 0) := by
  have h0 := hfull 0 (by decide)
  have h1 := hfull 1 (by decide)
  have h2 := hfull 2 (by decide)
  have h3 := hfull 3 (by decide)
  unfold SoftwareServo.attach
  rw [if_pos hat]
  have hscan : attach_scan s.pins 0 MAX_SERVOS = none := by
    show attach_scan s.pins 0 4 = none
    unfold attach_scan
    rw [if_neg h0]
    unfold attach_scan
    rw [if_neg h1]
    unfold attach_scan
    rw [if_neg h2]
    unfold attach_scan
    rw [if_neg h3]
    rfl
  rw [hscan]
  rw [if_pos hid]

/-- Witness for C7 at a concrete full table. -/
theorem attach_capacity_exhausted_noop_witness :
    (SoftwareServo.init._attached = false ∧ SoftwareServo.init._id = -1 ∧
      (∀ j, j < MAX_SERVOS → s_full.pins.getD j 0 ≠ -1)) ∧
    SoftwareServo.attach SoftwareServo.init s_full 9 1000 2000 1500 =
      some (SoftwareServo.init, s_full, 0) :=
  ⟨⟨by decide, by decide, by decide⟩,
    attach_capacity_exhausted_noop SoftwareServo.init s_full 9 1000 2000 1500
      (by decide) (by decide) (by decide)⟩

/-- C8: one invocation of the timer-interrupt routine leaves the Channel Table
(pins, pulse widths, bitmask) and the Schedule (next and delay arrays)
unchanged; it only moves the current-channel cursor (and the timer's armed
state). -/
theorem timer_tick_frame (s : ServoState) :
    (software_servo_timer_tick s).pins = s.pins ∧
    (software_servo_timer_tick s).pulse_lenght = s.pulse_lenght ∧
    (software_servo_timer_tick s).map = s.map ∧
    (software_servo_timer_tick s).next_servo = s.next_servo ∧
    (software_servo_timer_tick s).time_to_next_pulse = s.time_to_next_pulse := by
  unfold software_servo_timer_tick
  split <;> exact ⟨rfl, rfl, rfl, rfl, rfl⟩

/-- C9: `attach` reports failure with the return value 0, but a successful
attach returns the bound pin number; attaching pin 0 with a free slot
available succeeds (the handle is attached to slot 0 and pin 0 is recorded)
yet also returns 0, exactly the failure value returned when the table is
full. -/
theorem attach_pin_zero_success_indistinguishable_from_failure :
    SoftwareServo.attach SoftwareServo.init initialState 0 DEFAULT_MIN_PULSE_WIDTH
      DEFAULT_MAX_PULSE_WIDTH DEFAULT_NEUTRAL_PULSE_WIDTH = some (h_pin0, s_pin0, 0) ∧
    h_pin0._attached = true ∧ h_pin0._id = 0 ∧ s_pin0.pins.getD 0 0 = 0 ∧
    SoftwareServo.attach SoftwareServo.init s_full 9 DEFAULT_MIN_PULSE_WIDTH
      DEFAULT_MAX_PULSE_WIDTH DEFAULT_NEUTRAL_PULSE_WIDTH =
      some (SoftwareServo.init, s_full, 0) ∧
    SoftwareServo.init._attached = false := by decide

/-- C10 counterexample: after the degenerate attach that collapses the bounds
to 250-250, `write(90)` (an angle, below 200) does not divide by zero: its
`improved_map` call has input range 0-180, divisor 180, and completes
normally (a zero divisor would produce `none`). -/
theorem degenerate_write_does_not_divide_by_zero :
    SoftwareServo.attach SoftwareServo.init initialState 1 3000 250 1500 =
      some (h_deg, s_deg, 1) ∧
    SoftwareServo.write h_deg s_deg 90 = some s_deg := by decide

/-- C10 (amended): the attach-time clamp permits `minUs = maxUs`
(`attach(1, 3000, 250)` produces bounds 250-250), and then `read()` calls
`improved_map` with `minIn = maxIn`, whose divisor `rangeIn` is 0 (undefined
behaviour, modelled as `none`); `write(v)` with `v < 200` is not affected,
since its `improved_map` call uses the fixed input range 0-180. -/
theorem degenerate_attach_read_divides_by_zero :
    SoftwareServo.attach SoftwareServo.init initialState 1 3000 250 1500 =
      some (h_deg, s_deg, 1) ∧
    h_deg._minUs = h_deg._maxUs ∧
    SoftwareServo.read h_deg s_deg = none := by decide

/-! ### Helper lemmas for the schedule rebuild -/

/-- The outer rebuild loop only writes `next_servo` and `time_to_next_pulse`;
all other state components pass through unchanged. -/
theorem find_loop_frame (fuel : Nat) : ∀ (s : ServoState) (i : Nat) (f : Int),
    (find_loop s i f fuel).1.pins = s.pins ∧
    (find_loop s i f fuel).1.pulse_lenght = s.pulse_lenght ∧
    (find_loop s i f fuel).1.map = s.map ∧
    (find_loop s i f fuel).1.current_servo = s.current_servo ∧
    (find_loop s i f fuel).1.timer_armed = s.timer_armed := by
  induction fuel with
  | zero => intro s i f; exact ⟨rfl, rfl, rfl, rfl, rfl⟩
  | succ n ih =>
    intro s i f
    unfold find_loop
    cases hscan : find_scan s.pins i 0 MAX_SERVOS REFRESH_INTERVAL with
    | none => exact ih s (i + 1) f
    | some p =>
      obtain ⟨idx, tmp⟩ := p
      exact ih _ (i + 1) (f + 1)

/-- `find_times_between_pulses` only writes the schedule arrays. -/
theorem find_frame (s : ServoState) :
    (find_times_between_pulses s).1.pins = s.pins ∧
    (find_times_between_pulses s).1.pulse_lenght = s.pulse_lenght ∧
    (find_times_between_pulses s).1.map = s.map ∧
    (find_times_between_pulses s).1.current_servo = s.current_servo ∧
    (find_times_between_pulses s).1.timer_armed = s.timer_armed :=
  find_loop_frame MAX_SERVOS s 0 0

/-- Reading back an in-range list update. -/
theorem getD_set_self (l : List Int) (i : Nat) (v : Int) (h : i < l.length) :
    (l.set i v).getD i 0 = v := by
  simp [List.getD, List.getElem?_set_self', h]

/-- Mapping 0 into the angle domain from any nondegenerate attachable
calibration range (200 ≤ min < max ≤ 3000) produces a strictly negative
value. -/
theorem read_zero_neg (mn mx : Int) (hmn : 200 ≤ mn) (hlt : mn < mx) (hmx : mx ≤ 3000) :
    ∃ r : Int, improved_map 0 mn mx 0 180 = some r ∧ r < 0 := by
  have hR : 0 < mx - mn := by omega
  unfold improved_map
  rw [if_neg (by omega)]
  refine ⟨_, rfl, ?_⟩
  have h1 : (0 - mn) * (180 - 0) * (1 * 2) = -(mn * 360) := by ring
  rw [h1, Int.neg_tdiv]
  have h2 : 3 ≤ (mn * 360).tdiv (mx - mn) := by
    rw [Int.tdiv_eq_ediv (by positivity) (le_of_lt hR), Int.le_ediv_iff_mul_le hR]
    omega
  have h3 : -((mn * 360).tdiv (mx - mn)) + 1 = -((mn * 360).tdiv (mx - mn) - 1) := by ring
  rw [h3, Int.neg_tdiv]
  have h4 : 1 ≤ ((mn * 360).tdiv (mx - mn) - 1).tdiv (1 * 2) := by
    rw [Int.tdiv_eq_ediv (by omega) (by norm_num),
      Int.le_ediv_iff_mul_le (by norm_num : (0:Int) < 1 * 2)]
    omega
  omega

/-- C3 (amended: the handle must be attached, with its slot id in range):
after `writeMicroseconds(v)`, `readMicroseconds()` returns
`constrain v _minUs _maxUs`. -/
theorem writeMicroseconds_then_readMicroseconds (h : SoftwareServo) (s : ServoState)
    (v : Int) (hat : h._attached = true) (hlen : h._id.toNat < s.pulse_lenght.length) :
    (h.writeMicroseconds s v |> h.readMicroseconds) = constrain v h._minUs h._maxUs := by
  show h.readMicroseconds (h.writeMicroseconds s v) = _
  unfold SoftwareServo.readMicroseconds
  rw [if_pos hat]
  unfold SoftwareServo.writeMicroseconds
  rw [if_pos hat]
  dsimp only
  split <;>
  · rw [(find_frame _).2.1]
    exact getD_set_self _ _ _ hlen

/-- Witness for C3 at a concrete attached handle. -/
theorem writeMicroseconds_then_readMicroseconds_witness :
    (h_one._attached = true ∧ h_one._id.toNat < s_one.pulse_lenght.length) ∧
    (h_one.writeMicroseconds s_one 1700 |> h_one.readMicroseconds) =
      constrain 1700 h_one._minUs h_one._maxUs :=
  ⟨⟨by decide, by decide⟩,
    writeMicroseconds_then_readMicroseconds h_one s_one 1700 (by decide) (by decide)⟩

/-- C3 counterexample: for an unattached handle the claim fails:
`writeMicroseconds(1500)` is a no-op and `readMicroseconds()` returns 0, not
`clamp(1500, 1000, 2000) = 1500`. -/
theorem writeMicroseconds_unattached_not_clamp :
    SoftwareServo.detach h_one s_one = (h_det, s_det) ∧
    h_det.writeMicroseconds s_det 1500 = s_det ∧
    h_det.readMicroseconds s_det = 0 ∧
    constrain 1500 h_det._minUs h_det._maxUs = 1500 ∧
    h_det.readMicroseconds (h_det.writeMicroseconds s_det 1500) ≠
      constrain 1500 h_det._minUs h_det._maxUs := by decide

/-- C4 (amended): on an unattached handle, `write` and `writeMicroseconds`
change nothing and `readMicroseconds` returns 0, none signalling failure; but
`read` does not return 0: it maps 0 through `improved_map`, which for any
nondegenerate attachable calibration bounds (200 ≤ min < max ≤ 3000; the
degenerate min = max case divides by zero, C10's subject) yields a strictly
negative value. -/
theorem unattached_ops_noop_but_read_negative (h : SoftwareServo) (s : ServoState)
    (v : Int) (hat : h._attached = false) :
    h.writeMicroseconds s v = s ∧
    h.write s v = some s ∧
    h.readMicroseconds s = 0 ∧
    (200 ≤ h._minUs → h._minUs < h._maxUs → h._maxUs ≤ 3000 →
      ∃ r, h.read s = some r ∧ r < 0) := by
  have hw : ∀ w, h.writeMicroseconds s w = s := by
    intro w
    unfold SoftwareServo.writeMicroseconds
    rw [hat]
    rfl
  have hr : h.readMicroseconds s = 0 := by
    unfold SoftwareServo.readMicroseconds
    rw [hat]
    rfl
  refine ⟨hw v, ?_, hr, ?_⟩
  · unfold SoftwareServo.write
    split
    · unfold improved_map
      rw [if_neg (by norm_num)]
      dsimp only
      rw [hw]
    · rw [hw]
  · intro hb1 hb2 hb3
    unfold SoftwareServo.read
    rw [hr]
    exact read_zero_neg h._minUs h._maxUs hb1 hb2 hb3

/-- Witness for C4 at a concrete detached handle. -/
theorem unattached_ops_noop_but_read_negative_witness :
    h_det._attached = false ∧
    (h_det.writeMicroseconds s_det 1500 = s_det ∧ h_det.write s_det 1500 = some s_det) ∧
    (∃ r, h_det.read s_det = some r ∧ r < 0) :=
  ⟨by decide,
    ⟨(unattached_ops_noop_but_read_negative h_det s_det 1500 (by decide)).1,
      (unattached_ops_noop_but_read_negative h_det s_det 1500 (by decide)).2.1⟩,
    (unattached_ops_noop_but_read_negative h_det s_det 1500 (by decide)).2.2.2
      (by decide) (by decide) (by decide)⟩

/-- C4 counterexample: `read()` on an unattached handle (with the calibration
bounds 1000-2000 it had when attached) returns -179, not 0. -/
theorem read_unattached_not_zero :
    SoftwareServo.detach h_one s_one = (h_det, s_det) ∧
    h_det._attached = false ∧
    h_det.read s_det = some (-179) ∧
    h_det.read s_det ≠ some 0 := by decide

/-- Destructuring a list of length 4 into its four entries. -/
theorem list_eq_four (l : List Int) (h : l.length = 4) :
    ∃ a b c d : Int, l = [a, b, c, d] := by
  match l, h with
  | [a, b, c, d], _ => exact ⟨a, b, c, d, rfl⟩

/-- C6: in any well-formed state where exactly slot `i` has an assigned pin,
the Schedule Builder computes `delay[i] = MAX_SERVOS * REFRESH_INTERVAL` (one
full cycle) and `next[i] = i` (the slot is its own successor). -/
theorem find_single_active (s : ServoState) (i : Nat) (hWF : s.WF) (hi : i < MAX_SERVOS)
    (hpin : s.pins.getD i 0 ≠ -1)
    (hothers : ∀ j, j < MAX_SERVOS → j ≠ i → s.pins.getD j 0 = -1) :
    (find_times_between_pulses s).1.time_to_next_pulse.getD i 0 =
      (MAX_SERVOS : Int) * REFRESH_INTERVAL ∧
    (find_times_between_pulses s).1.next_servo.getD i 0 = (i : Int) := by
  obtain ⟨pins, pl, cs, mp, ns, tp, ta⟩ := s
  obtain ⟨hP, _hL, hN, hT⟩ := hWF
  simp only [MAX_SERVOS] at hP hN hT hi hothers
  obtain ⟨p0, p1, p2, p3, rfl⟩ := list_eq_four pins hP
  obtain ⟨n0, n1, n2, n3, rfl⟩ := list_eq_four ns hN
  obtain ⟨t0, t1, t2, t3, rfl⟩ := list_eq_four tp hT
  interval_cases i
  · have e1 : p1 = -1 := by simpa using hothers 1 (by norm_num) (by norm_num)
    have e2 : p2 = -1 := by simpa using hothers 2 (by norm_num) (by norm_num)
    have e3 : p3 = -1 := by simpa using hothers 3 (by norm_num) (by norm_num)
    subst e1 e2 e3
    simp at hpin
    simp [find_times_between_pulses, find_loop, find_scan, MAX_SERVOS, REFRESH_INTERVAL,
      hpin, List.getD]
  · have e1 : p0 = -1 := by simpa using hothers 0 (by norm_num) (by norm_num)
    have e2 : p2 = -1 := by simpa using hothers 2 (by norm_num) (by norm_num)
    have e3 : p3 = -1 := by simpa using hothers 3 (by norm_num) (by norm_num)
    subst e1 e2 e3
    simp at hpin
    simp [find_times_between_pulses, find_loop, find_scan, MAX_SERVOS, REFRESH_INTERVAL,
      hpin, List.getD]
  · have e1 : p0 = -1 := by simpa using hothers 0 (by norm_num) (by norm_num)
    have e2 : p1 = -1 := by simpa using hothers 1 (by norm_num) (by norm_num)
    have e3 : p3 = -1 := by simpa using hothers 3 (by norm_num) (by norm_num)
    subst e1 e2 e3
    simp at hpin
    simp [find_times_between_pulses, find_loop, find_scan, MAX_SERVOS, REFRESH_INTERVAL,
      hpin, List.getD]
  · have e1 : p0 = -1 := by simpa using hothers 0 (by norm_num) (by norm_num)
    have e2 : p1 = -1 := by simpa using hothers 1 (by norm_num) (by norm_num)
    have e3 : p2 = -1 := by simpa using hothers 2 (by norm_num) (by norm_num)
    subst e1 e2 e3
    simp at hpin
    simp [find_times_between_pulses, find_loop, find_scan, MAX_SERVOS, REFRESH_INTERVAL,
      hpin, List.getD]

/-- A state whose only assigned pin sits in slot 2. -/
def s_single : ServoState :=
  { pins := [-1, -1, 7, -1], pulse_lenght := [1500, 1500, 1500, 1500], current_servo := 0,
    map := 4, next_servo := [1, 2, 3, 0], time_to_next_pulse := [5, 5, 5, 5],
    timer_armed := false }

/-- Witness for C6 at slot 2 of `s_single`. -/
theorem find_single_active_witness :
    (s_single.WF ∧ 2 < MAX_SERVOS ∧ s_single.pins.getD 2 0 ≠ -1 ∧
      (∀ j, j < MAX_SERVOS → j ≠ 2 → s_single.pins.getD j 0 = -1)) ∧
    ((find_times_between_pulses s_single).1.time_to_next_pulse.getD 2 0 =
      (MAX_SERVOS : Int) * REFRESH_INTERVAL ∧
     (find_times_between_pulses s_single).1.next_servo.getD 2 0 = (2 : Int)) :=
  ⟨⟨by decide, by decide, by decide, by decide⟩,
    find_single_active s_single 2 (by decide) (by decide) (by decide) (by decide)⟩

/-! ### The round-trip property of `improved_map` -/

/-- Core arithmetic of the round trip, over natural-number floor division:
with `F` the scaled image of `A` and `G` the scaled image of `F` back in the
angle domain, mapping `G` forward again reproduces `F`.  The three maps are
the half-up roundings `(A * RN + 90) / 180`, `(F * 360 + RN) / (2 * RN)` and
`(G * RN + 90) / 180`; for ranges below 180 the forward map is a left inverse
of the backward one everywhere, and for ranges of 180 or more the backward map
recovers `A` exactly. -/
theorem roundtrip_nat (RN A F G : Nat) (hR : 1 ≤ RN)
    (hF : F = (A * RN * 2 / 180 + 1) / 2)
    (hG : G = (F * 180 * 2 / RN + 1) / 2) :
    (G * RN * 2 / 180 + 1) / 2 = F := by
  have hF' : F = (A * RN + 90) / 180 := by
    rw [hF]; generalize A * RN = n; omega
  have hG' : G = (F * 360 + RN) / (RN * 2) := by
    rw [hG]
    have h1 : F * 180 * 2 = F * 360 := by ring
    rw [h1, ← Nat.add_div_right (F * 360) (by omega : 0 < RN), Nat.div_div_eq_div_mul]
  have hgoal : (G * RN * 2 / 180 + 1) / 2 = (G * RN + 90) / 180 := by
    generalize G * RN = m; omega
  rw [hgoal]
  rcases Nat.lt_or_ge RN 180 with h180 | h180
  · have hdm := Nat.div_add_mod (F * 360 + RN) (RN * 2)
    have hmlt : (F * 360 + RN) % (RN * 2) < RN * 2 := Nat.mod_lt _ (by omega)
    rw [← hG'] at hdm
    have h2 : RN * 2 * G = 2 * (G * RN) := by ring
    rw [h2] at hdm
    generalize G * RN = x at hdm ⊢
    apply Nat.div_eq_of_lt_le <;> omega
  · rcases Nat.eq_or_lt_of_le h180 with h181 | h181
    · rw [← h181] at hG' ⊢
      omega
    · have hdmF := Nat.div_add_mod (A * RN + 90) 180
      rw [← hF'] at hdmF
      have hGA : G = A := by
        rw [hG']
        have e1 : A * (RN * 2) = 2 * (A * RN) := by ring
        have e2 : (A + 1) * (RN * 2) = 2 * (A * RN) + 2 * RN := by ring
        apply Nat.div_eq_of_lt_le
        · rw [e1]; omega
        · rw [e2]; omega
      rw [hGA]
      exact hF'.symm

/-- Evaluation of `improved_map` when the offset and the input range are the
casts of naturals (so both truncating divisions are floor divisions). -/
theorem improved_map_eval (value minIn maxIn minOut maxOut : Int)
    (V R O : Nat) (hd : value - minIn = (V : Int)) (hr : maxIn - minIn = (R : Int))
    (hR : 1 ≤ R) (ho : maxOut - minOut = (O : Int)) :
    improved_map value minIn maxIn minOut maxOut =
      some (((V * O * 2 / R + 1) / 2 : Nat) + minOut) := by
  have hne : maxIn - minIn ≠ 0 := by
    rw [hr]
    exact_mod_cast Nat.one_le_iff_ne_zero.mp hR
  simp only [improved_map]
  rw [if_neg hne]
  congr 1
  rw [hd, ho, hr]
  have h1 : (V : Int) * O * (1 * 2) = ((V * O * 2 : Nat) : Int) := by push_cast; ring
  rw [h1, ← Int.ofNat_tdiv]
  have h2 : ((V * O * 2 / R : Nat) : Int) + 1 = ((V * O * 2 / R + 1 : Nat) : Int) := by
    push_cast; ring
  rw [h2]
  have h3 : (1 * 2 : Int) = ((2 : Nat) : Int) := by norm_num
  rw [h3, ← Int.ofNat_tdiv]

/-- C5: for any angle in 0-180 and any nondegenerate calibration bounds, the
composition angle-to-microseconds, microseconds-to-angle,
angle-to-microseconds reproduces the first angle-to-microseconds value
exactly, both directions being instances of `improved_map`. -/
theorem improved_map_roundtrip (mn mx a : Int)
    (hmn : 200 ≤ mn) (hlt : mn < mx) (hmx : mx ≤ 3000) (ha0 : 0 ≤ a) (ha : a ≤ 180) :
    ∃ u b, improved_map a 0 180 mn mx = some u ∧
      improved_map u mn mx 0 180 = some b ∧
      improved_map b 0 180 mn mx = some u := by
  obtain ⟨A, hA⟩ : ∃ A : Nat, a = (A : Int) := ⟨a.toNat, (Int.toNat_of_nonneg ha0).symm⟩
  obtain ⟨RN, hRN⟩ : ∃ R : Nat, mx - mn = (R : Int) :=
    ⟨(mx - mn).toNat, (Int.toNat_of_nonneg (by omega)).symm⟩
  have hR1 : 1 ≤ RN := by
    have : (0 : Int) < (RN : Int) := by omega
    exact_mod_cast this
  set F : Nat := (A * RN * 2 / 180 + 1) / 2 with hFdef
  set G : Nat := (F * 180 * 2 / RN + 1) / 2 with hGdef
  refine ⟨(F : Int) + mn, (G : Int) + 0, ?_, ?_, ?_⟩
  · exact improved_map_eval a 0 180 mn mx A 180 RN (by omega) (by norm_num) (by norm_num)
      (by omega)
  · exact improved_map_eval ((F : Int) + mn) mn mx 0 180 F RN 180 (by ring) (by omega) hR1
      (by norm_num)
  · have e3 := improved_map_eval ((G : Int) + 0) 0 180 mn mx G 180 RN (by ring) (by norm_num)
      (by norm_num) (by omega)
    rw [roundtrip_nat RN A F G hR1 hFdef hGdef] at e3
    exact e3

/-- Witness for C5 at angle 90 with bounds 1000-2000. -/
theorem improved_map_roundtrip_witness :
    ((200 : Int) ≤ 1000 ∧ (1000 : Int) < 2000 ∧ (2000 : Int) ≤ 3000 ∧
      (0 : Int) ≤ 90 ∧ (90 : Int) ≤ 180) ∧
    ∃ u b, improved_map 90 0 180 1000 2000 = some u ∧
      improved_map u 1000 2000 0 180 = some b ∧
      improved_map b 0 180 1000 2000 = some u :=
  ⟨⟨by decide, by decide, by decide, by decide, by decide⟩,
    improved_map_roundtrip 1000 2000 90 (by decide) (by decide) (by decide) (by decide)
      (by decide)⟩
